import Mathlib

/-!
A shallow embedding of the core of the `pricing-server-ai` repository
(Go), together with theorems checking the natural-language specification
against it.

Conventions of the embedding:
* Go `float64` values (prices, payoffs, rungs, target movements) are
  modelled as `ℚ`, with exact arithmetic standing in for float
  arithmetic; the GBM price generator, which genuinely uses `exp` and
  `sqrt`, is modelled over `ℝ`.
* Go `time.Time` values are modelled as `ℤ` (milliseconds since epoch);
  `t1.After(t2)` is `t1 > t2`.
* Mutating methods become pure functions `state → args → state × emitted
  events`; channels become lists with an explicit capacity; Go maps keyed
  by strings become association lists / lists of keys.
* Each definition mirrors one function of the source, keeping the
  source's field and function names up to capitalisation.
-/

namespace PricingServer

/-- Contract status as observed at the public interface.  The Go code
carries status as the pair of flags `IsActive` / `HasReachedTarget`
(momentum) resp. `IsActive` / `HasHitRung` (ladder) and as the `status`
strings `"TargetReached"` / `"Expired"` of `notifyClient`. -/
inductive CStatus where
  | active
  | target_hit
  | expired
  deriving DecidableEq, Repr

/-- Events a momentum evaluator can emit while handling a price update:
the session update callback (`mc.updateCallback(price, timestamp)`), and
the client notification (`mc.notifyClient(status, price, timestamp)`). -/
inductive MCEvent where
  | callbackUpdate (price : ℚ) (timestamp : ℤ)
  | clientNotify (status : String) (price : ℚ) (timestamp : ℤ) (payoff : ℚ)
  deriving DecidableEq, Repr

/-- State of `products.MomentumCatcher`
(src/internal/products/momentum_catcher.go).  `updateCallbackSet` models
whether `updateCallback` is non-nil (the server always sets it via
`SetUpdateCallback` when it builds the product). -/
structure MomentumCatcher where
  clientID : String
  contractID : String
  startingPrice : Option ℚ
  targetMovement : ℚ
  startTime : ℤ
  duration : ℤ
  expiryTime : ℤ
  isActive : Bool
  hasReachedTarget : Bool
  payoff : ℚ
  priceHistory : List ℚ
  updateCallbackSet : Bool
  deriving DecidableEq, Repr

/-- The helper `abs` of momentum_catcher.go (lines 168–173):
`if x < 0 { return -x }; return x`.  (Named `goAbs` because `abs`
already denotes Mathlib's absolute value.) -/
def goAbs (x : ℚ) : ℚ :=
  if x < 0 then -x else x

namespace MomentumCatcher

/-- `MomentumCatcher.HandlePriceUpdate` (momentum_catcher.go, lines
86–123), as a pure function returning the new state and the list of
emitted events, in emission order.  The source: (1) always invokes the
update callback first when it is set; (2) returns if `!mc.IsActive`;
(3) sets `StartingPrice` on the first update; (4) appends to
`PriceHistory`; (5) if `abs(price − *StartingPrice) ≥ TargetMovement`,
sets `HasReachedTarget`, clears `IsActive`, notifies `"TargetReached"`
and returns; (6) otherwise if `timestamp.After(ExpiryTime)`, clears
`IsActive` and notifies `"Expired"`. -/
def handlePriceUpdate (mc : MomentumCatcher) (price : ℚ) (timestamp : ℤ) :
    MomentumCatcher × List MCEvent :=
  let events0 : List MCEvent :=
    if mc.updateCallbackSet then [MCEvent.callbackUpdate price timestamp] else []
  if !mc.isActive then
    (mc, events0)
  else
    let sp : ℚ := mc.startingPrice.getD price
    let mc1 : MomentumCatcher :=
      { mc with startingPrice := some sp, priceHistory := mc.priceHistory ++ [price] }
    let priceMovement : ℚ := goAbs (price - sp)
    if priceMovement ≥ mc.targetMovement then
      ({ mc1 with hasReachedTarget := true, isActive := false },
        events0 ++ [MCEvent.clientNotify "TargetReached" price timestamp mc.payoff])
    else if timestamp > mc.expiryTime then
      ({ mc1 with isActive := false },
        events0 ++ [MCEvent.clientNotify "Expired" price timestamp mc.payoff])
    else
      (mc1, events0)

/-- The status of a momentum contract, as derived from its flags: the
code reports `"TargetReached"` exactly when it sets `HasReachedTarget`
and clears `IsActive`, and `"Expired"` when it clears `IsActive` without
reaching the target. -/
def status (mc : MomentumCatcher) : CStatus :=
  if mc.isActive then CStatus.active
  else if mc.hasReachedTarget then CStatus.target_hit
  else CStatus.expired

/-- The externally visible snapshot built by `MomentumCatcher.GetState`
(momentum_catcher.go, lines 131–147).  `startTime`/`expiryTime` are
reported formatted; we keep the underlying instants. -/
structure StateView where
  contractID : String
  isActive : Bool
  hasReachedTarget : Bool
  startingPrice : ℚ
  targetMovement : ℚ
  startTime : ℤ
  expiryTime : ℤ
  priceHistory : List ℚ
  payoff : ℚ
  deriving DecidableEq, Repr

/-- `MomentumCatcher.GetState`: a nil `StartingPrice` is reported as the
`float64` zero value (`var startingPrice float64`). -/
def getState (mc : MomentumCatcher) : StateView :=
  { contractID := mc.contractID
    isActive := mc.isActive
    hasReachedTarget := mc.hasReachedTarget
    startingPrice := mc.startingPrice.getD 0
    targetMovement := mc.targetMovement
    startTime := mc.startTime
    expiryTime := mc.expiryTime
    priceHistory := mc.priceHistory
    payoff := mc.payoff }

end MomentumCatcher

/-- Events a ladder evaluator can emit while handling a price update.
`products.LuckyLadder` only ever invokes its update callback. -/
inductive LLEvent where
  | callbackUpdate (price : ℚ) (timestamp : ℤ)
  deriving DecidableEq, Repr

/-- State of `products.LuckyLadder`
(src/internal/products/lucky_ladder.go).  `hitRungs` models the Go map
`HitRungs map[float64]bool` as an association list (one entry per rung,
`Init` sets every rung to `false`). -/
structure LuckyLadder where
  clientID : String
  contractID : String
  rungs : List ℚ
  startTime : ℤ
  duration : ℤ
  expiryTime : ℤ
  isActive : Bool
  hasHitRung : Bool
  hitRungs : List (ℚ × Bool)
  payoff : ℚ
  priceHistory : List ℚ
  updateCallbackSet : Bool
  deriving DecidableEq, Repr

namespace LuckyLadder

/-- `LuckyLadder.HandlePriceUpdate` (lucky_ladder.go, lines 61–68): if
the update callback is nil it logs a warning and returns; otherwise it
invokes the callback.  It performs no other work: it never reads
`Rungs`, never writes `HitRungs`, `HasHitRung`, `PriceHistory` or
`IsActive`, and never compares `timestamp` with `ExpiryTime`. -/
def handlePriceUpdate (ll : LuckyLadder) (price : ℚ) (timestamp : ℤ) :
    LuckyLadder × List LLEvent :=
  if ll.updateCallbackSet then
    (ll, [LLEvent.callbackUpdate price timestamp])
  else
    (ll, [])

end LuckyLadder

/-! ## Simulation engine

Two variants of the simulation engine exist in the source: the
`PriceHandler`-based one (src/unnamed/part_005) and the
`products.Product`-based one (src/internal/simulation/engine.go).  Both
keep `subscribers` as a Go map from contract id to handler and
`BasePrice : float64`; they differ in `Subscribe`: the part_005 variant
delivers an immediate initial price update with the current `BasePrice`
to the new subscriber, the engine.go variant only inserts into the map.
We model the subscriber map by its list of keys (insertion keeps the key
set; re-subscribing an existing id replaces the handler, leaving the key
set unchanged) and record the price events delivered to evaluators
during the call. -/

/-- A price event `(contractID, price)` delivered to one subscriber. -/
structure Delivery where
  contractID : String
  price : ℚ
  deriving DecidableEq, Repr

/-- Registry part of `SimulationEngine` shared by both variants:
the keys of `subscribers` and `BasePrice`. -/
structure SimulationEngine where
  subscribers : List String
  basePrice : ℚ
  deriving DecidableEq, Repr

namespace SimulationEngine

/-- Map-insertion on the key set: `se.subscribers[contractID] = handler`
adds the key if absent, otherwise replaces the value in place. -/
def registryInsert (l : List String) (contractID : String) : List String :=
  if contractID ∈ l then l else contractID :: l

/-- `SimulationEngine.Subscribe` of src/unnamed/part_005 (lines 74–86):
inserts the subscriber and immediately spawns
`handler.HandlePriceUpdate(se.BasePrice, timestamp)`, a single priming
delivery carrying the current base price.  Returns the new engine state
and the deliveries made by the call. -/
def subscribeWithPriming (se : SimulationEngine) (contractID : String) :
    SimulationEngine × List Delivery :=
  ({ se with subscribers := registryInsert se.subscribers contractID },
    [{ contractID := contractID, price := se.basePrice }])

/-- `SimulationEngine.Subscribe` of src/internal/simulation/engine.go
(lines 57–62): inserts the subscriber and returns; no initial price
update is delivered. -/
def subscribe (se : SimulationEngine) (contractID : String) :
    SimulationEngine × List Delivery :=
  ({ se with subscribers := registryInsert se.subscribers contractID }, [])

/-- `SimulationEngine.Unsubscribe` (both variants): deletes the key. -/
def unsubscribe (se : SimulationEngine) (contractID : String) :
    SimulationEngine :=
  { se with subscribers := se.subscribers.filter (fun k => k ≠ contractID) }

end SimulationEngine

/-- The geometric-Brownian-motion state of the engine, over `ℝ` since the
generator genuinely uses `exp`, `pow` and `sqrt`. -/
structure EngineGBM where
  basePrice : ℝ

namespace EngineGBM

/-- `SimulationEngine.generatePrice` (engine.go lines 84–99 and
part_005 lines 97–113, identical): with `mu := 0.0002`, `sigma := 0.01`,
`dt := 0.1` and the standard-normal draw `epsilon`, it sets
`se.BasePrice = se.BasePrice * exp((mu - 0.5*pow(sigma,2))*dt +
sigma*epsilon*sqrt(dt))` and returns the new `se.BasePrice`.  We return
the new state together with the returned value. -/
noncomputable def generatePrice (se : EngineGBM) (epsilon : ℝ) :
    EngineGBM × ℝ :=
  let mu : ℝ := 0.0002
  let sigma : ℝ := 0.01
  let dt : ℝ := 0.1
  let newPrice : ℝ :=
    se.basePrice * Real.exp ((mu - 0.5 * sigma ^ 2) * dt + sigma * epsilon * Real.sqrt dt)
  ({ basePrice := newPrice }, newPrice)

end EngineGBM

/-! ## Session (src/internal/server/client.go, validating variant)

The repository holds three variants of `client.go`; the one with
validation (the file's second variant, whose `validateContractData` is
at lines 447–492 and `handleContractSubmission` at lines 495–510) is the
one the claims cite.  JSON decoding of a well-formed frame is modelled
as an already-decoded `InMessage`; absent JSON fields decode to Go zero
values (`""`, `0`, `nil`). -/

/-- `server.ContractData`: the weakly-typed submission payload.  Absent
numeric fields decode to `0`, an absent `rungs` to the empty list. -/
structure ContractData where
  productType : String
  rungs : List ℚ
  targetMovement : ℚ
  duration : ℤ
  payoff : ℚ
  deriving DecidableEq, Repr

/-- The duplicate-rung scan of `validateContractData`: walk the rungs
with a `seen` set, failing on the first rung already seen. -/
def hasDuplicateRung : List ℚ → List ℚ → Bool
  | _, [] => false
  | seen, r :: rs => if r ∈ seen then true else hasDuplicateRung (r :: seen) rs

/-- The ascending-order scan of `validateContractData`: indices
`1 ≤ i < len` fail when `rungs[i] ≤ rungs[i-1]`. -/
def rungsAscending : List ℚ → Bool
  | [] => true
  | [_] => true
  | a :: b :: rs => decide (a < b) && rungsAscending (b :: rs)

/-- `Client.validateContractData` (client.go lines 447–492), returning
`some errorMessage` on failure and `none` on success, following the
source's check order exactly. -/
def validateContractData (d : ContractData) : Option String :=
  if d.productType = "" then some "productType is required"
  else if d.duration ≤ 0 then some "duration must be positive"
  else if d.payoff ≤ 0 then some "payoff must be positive"
  else if d.productType = "LuckyLadder" then
    if d.rungs.length = 0 then some "rungs are required for LuckyLadder"
    else if hasDuplicateRung [] d.rungs then some "duplicate rung values are not allowed"
    else if !rungsAscending d.rungs then some "rungs must be in ascending order"
    else none
  else if d.productType = "MomentumCatcher" then
    if d.targetMovement ≤ 0 then some "targetMovement must be positive"
    else none
  else some ("unsupported product type: " ++ d.productType)

/-- The `data` field of an inbound frame: absent (`msg.Data == nil`),
present but not decodable into `ContractData`, or decoded. -/
inductive MsgData where
  | absent
  | malformed
  | parsed (d : ContractData)
  deriving DecidableEq, Repr

/-- An inbound frame after JSON decoding (`server.Message`): `msgType`
is `msg.Type` (`""` when the field is missing), `contractID` is
`msg.ContractID`. -/
structure InMessage where
  msgType : String
  data : MsgData
  contractID : String
  deriving DecidableEq, Repr

/-- An outbound reply frame. -/
inductive Reply where
  | errorMsg (errorType : String) (message : String)
  | contractAccepted (contractID : String)
  | contractUpdate (contractID : String)
  deriving DecidableEq, Repr

/-- The observable outcome of handling one inbound frame: the replies
enqueued for the session, the contract ids added to the contract
service, and the contract ids subscribed to the simulation engine. -/
structure HandleResult where
  replies : List Reply
  created : List String
  subscribed : List String
  deriving DecidableEq, Repr

/-- `Client.handleMessage` (client.go lines 377–413) together with
`Client.handleContractSubmission` (lines 495–581) and the
`ContractQuery` branch, as one pure function.  `svcOk` models whether
the external contract service accepts `AddContract`; `queryReplies`
models the replies produced by the external `GetContractState` lookup
of `handleContractQuery`; `newID` is the freshly generated contract id. -/
def handleMessage (svcOk : Bool) (queryReplies : List Reply) (newID : String)
    (m : InMessage) : HandleResult :=
  if m.msgType = "" then
    { replies := [Reply.errorMsg "ValidationError" "Message type is required"],
      created := [], subscribed := [] }
  else if m.msgType = "ContractSubmission" then
    match m.data with
    | MsgData.absent =>
        { replies := [Reply.errorMsg "ValidationError"
            "Data field is required for contract submission"],
          created := [], subscribed := [] }
    | MsgData.malformed =>
        { replies := [Reply.errorMsg "ParseError" "Invalid contract data format"],
          created := [], subscribed := [] }
    | MsgData.parsed d =>
        match validateContractData d with
        | some e =>
            { replies := [Reply.errorMsg "ValidationError" e],
              created := [], subscribed := [] }
        | none =>
            if svcOk then
              { replies := [Reply.contractAccepted newID],
                created := [newID], subscribed := [newID] }
            else
              { replies := [Reply.errorMsg "ValidationError" "Failed to create contract"],
                created := [], subscribed := [] }
  else if m.msgType = "ContractQuery" then
    if m.contractID = "" then
      { replies := [Reply.errorMsg "ValidationError"
          "ContractID is required for contract query"],
        created := [], subscribed := [] }
    else
      { replies := queryReplies, created := [], subscribed := [] }
  else
    { replies := [Reply.errorMsg "ValidationError" ("Unknown message type: " ++ m.msgType)],
      created := [], subscribed := [] }

/-! ## Outbound queue

`Client.Send` is `make(chan []byte, 256)`.  A `select { case ch <- m:
...; default: drop }` is a non-blocking try-send; a bare `ch <- m`
blocks the sender while the buffer is full.  We model the buffer as a
list of at most `sendChanCap` messages and a message as `ℕ`. -/

/-- The capacity of the session's outbound channel. -/
def sendChanCap : ℕ := 256

/-- `Client.SendMessage` (client.go lines 69–77): a `select`/`default`
try-send.  Returns the new queue and whether the message was enqueued
(`false` = dropped). -/
def trySendMessage (queue : List ℕ) (m : ℕ) : List ℕ × Bool :=
  if queue.length < sendChanCap then (queue ++ [m], true) else (queue, false)

/-- `Client.sendMessage` (client.go lines 594–603): after marshalling it
performs the unguarded send `c.Send <- message`, which completes only
when the buffer has room; `none` means the producer blocks. -/
def blockingSendMessage (queue : List ℕ) (m : ℕ) : Option (List ℕ) :=
  if queue.length < sendChanCap then some (queue ++ [m]) else none

/-! ## Hub (src/internal/server/hub.go lines 72–83 and
src/unnamed/part_004 lines 43–54)

The unregister branch of `Hub.Run`: if the client is registered, it is
removed from `Clients`, its `Send` channel closed, and every contract id
in `client.Contracts` is unsubscribed from the simulation engine and
removed from the contract service / manager. -/

/-- A registered client as the hub sees it: its id and the key set of
its `Contracts` map. -/
structure HubClient where
  id : String
  contracts : List String
  deriving DecidableEq, Repr

/-- Hub state relevant to teardown: the registered clients, the
simulation-engine subscriber registry (key set), and the contract
manager's contract ids. -/
structure HubState where
  clients : List HubClient
  registry : List String
  managerContracts : List String
  deriving DecidableEq, Repr

/-- The `case client := <-h.Unregister` branch of `Hub.Run`: when the
client is registered, remove it and unsubscribe/remove each of its
contract ids; otherwise do nothing. -/
def processUnregister (h : HubState) (c : HubClient) : HubState :=
  if c ∈ h.clients then
    { clients := h.clients.filter (fun x => x ≠ c)
      registry := c.contracts.foldl
        (fun r contractID => r.filter (fun k => k ≠ contractID)) h.registry
      managerContracts := c.contracts.foldl
        (fun r contractID => r.filter (fun k => k ≠ contractID)) h.managerContracts }
  else h

/-! ## Concrete fixtures used by witnesses and counterexamples -/

/-- A freshly initialised momentum contract (`Init` with
`TargetMovement = 5`, `Duration = 10000`, `Payoff = 100`, start at 0):
active, target not reached, starting price not yet observed. -/
def mcFresh : MomentumCatcher :=
  { clientID := "client1", contractID := "k1", startingPrice := none,
    targetMovement := 5, startTime := 0, duration := 10000,
    expiryTime := 10000, isActive := true, hasReachedTarget := false,
    payoff := 100, priceHistory := [], updateCallbackSet := true }

/-- A momentum contract that has observed its starting price 100 and
expires at 1000. -/
def mcRunning : MomentumCatcher :=
  { mcFresh with startingPrice := some 100, expiryTime := 1000,
                 priceHistory := [100] }

/-- A momentum contract that has left `active` (target reached). -/
def mcDone : MomentumCatcher :=
  { mcRunning with isActive := false, hasReachedTarget := true,
                   priceHistory := [100, 110] }

/-- A freshly initialised ladder contract with the single rung 105
(`Init` sets `HitRungs[105] = false`) and expiry at 5000. -/
def llFresh : LuckyLadder :=
  { clientID := "client1", contractID := "k2", rungs := [105],
    startTime := 0, duration := 5000, expiryTime := 5000,
    isActive := true, hasHitRung := false, hitRungs := [(105, false)],
    payoff := 100, priceHistory := [], updateCallbackSet := true }

/-- A submission frame carrying ladder rungs in descending order
(end-to-end scenario 3 of the specification). -/
def mBadLadder : InMessage :=
  { msgType := "ContractSubmission",
    data := MsgData.parsed
      { productType := "LuckyLadder", rungs := [115, 110, 105],
        targetMovement := 0, duration := 5000, payoff := 100 },
    contractID := "" }

/-- A hub with one registered session `"s1"` owning contracts `"k1"`,
`"k2"`, both subscribed, alongside another session's contract `"k3"`. -/
def hubFix : HubState :=
  { clients := [{ id := "s1", contracts := ["k1", "k2"] }],
    registry := ["k1", "k2", "k3"],
    managerContracts := ["k1", "k2"] }

/-- The session `"s1"` of `hubFix`. -/
def hubClientFix : HubClient :=
  { id := "s1", contracts := ["k1", "k2"] }

/-! ## Validity predicate for claim C5

The enumeration of semantically invalid submissions: missing `type`,
missing `data`, `productType` outside the allowed set, non-positive
`duration` or `payoff`, ladder rung defects, non-positive momentum
`targetMovement`. -/

/-- A decoded submission payload that is semantically invalid. -/
def invalidData (d : ContractData) : Prop :=
  (d.productType ≠ "LuckyLadder" ∧ d.productType ≠ "MomentumCatcher") ∨
  d.duration ≤ 0 ∨ d.payoff ≤ 0 ∨
  (d.productType = "LuckyLadder" ∧
    (d.rungs = [] ∨ hasDuplicateRung [] d.rungs = true ∨ rungsAscending d.rungs = false)) ∨
  (d.productType = "MomentumCatcher" ∧ d.targetMovement ≤ 0)

/-- A well-formed inbound frame that is a semantically invalid
submission in the sense of claim C5. -/
def semanticallyInvalid (m : InMessage) : Prop :=
  m.msgType = "" ∨
  (m.msgType = "ContractSubmission" ∧ m.data = MsgData.absent) ∨
  (m.msgType = "ContractSubmission" ∧
    match m.data with
    | MsgData.parsed d => invalidData d
    | _ => False)

/-- The reply list consists of exactly one `Error` frame whose
`errorType` is `ValidationError`. -/
def isSingleValidationError : List Reply → Prop
  | [Reply.errorMsg et _] => et = "ValidationError"
  | _ => False

/-! # Theorems -/

section Helpers

/-- The source's `abs` agrees with the mathematical absolute value. -/
lemma goAbs_eq_abs (x : ℚ) : goAbs x = |x| := by
  unfold goAbs
  split
  · exact (abs_of_neg (by assumption)).symm
  · exact (abs_of_nonneg (not_lt.mp (by assumption))).symm

/-- Removing keys by a left fold of filters never re-adds a key. -/
lemma notMem_foldl_filter (l : List String) (r : List String) (x : String)
    (h : x ∉ r) :
    x ∉ l.foldl (fun acc contractID => acc.filter (fun k => k ≠ contractID)) r := by
  induction l generalizing r with
  | nil => simpa using h
  | cons a l ih =>
      simp only [List.foldl_cons]
      exact ih _ (fun hmem => h (List.mem_of_mem_filter hmem))

/-- A key that occurs in the removal list is absent from the result of
the left fold of filters. -/
lemma mem_foldl_filter_removed (l : List String) (r : List String) (x : String)
    (h : x ∈ l) :
    x ∉ l.foldl (fun acc contractID => acc.filter (fun k => k ≠ contractID)) r := by
  induction l generalizing r with
  | nil => cases h
  | cons a l ih =>
      simp only [List.foldl_cons]
      rcases List.mem_cons.mp h with rfl | hx
      · exact notMem_foldl_filter l _ x (by simp [List.mem_filter])
      · exact ih _ hx

/-- Shape of `MomentumCatcher.handlePriceUpdate` on an active contract
whose starting price is already set: the three outcomes, in the order
the source checks them (target first, then expiry, else no change of
flags). -/
lemma handlePriceUpdate_active (mc : MomentumCatcher) (p : ℚ) (t : ℤ) (sp : ℚ)
    (hAct : mc.isActive = true) (hSp : mc.startingPrice = some sp) :
    (MomentumCatcher.handlePriceUpdate mc p t).1 =
      (if |p - sp| ≥ mc.targetMovement then
        { mc with startingPrice := some sp,
                  priceHistory := mc.priceHistory ++ [p],
                  hasReachedTarget := true, isActive := false }
      else if t > mc.expiryTime then
        { mc with startingPrice := some sp,
                  priceHistory := mc.priceHistory ++ [p],
                  isActive := false }
      else
        { mc with startingPrice := some sp,
                  priceHistory := mc.priceHistory ++ [p] }) := by
  unfold MomentumCatcher.handlePriceUpdate
  simp only [hAct, hSp, Bool.not_true, Bool.false_eq_true, if_false,
    Option.getD_some, goAbs_eq_abs]
  split_ifs <;> rfl

end Helpers

/-- Claim C1: the specification says every rung `r ∈ remaining_rungs`
with `p ≥ r` is moved to `rungs_hit` when an active Ladder contract
receives `on_price(p, t)` before expiry, with `target_hit` once all
rungs are hit.  The source's `LuckyLadder.HandlePriceUpdate` contains no
such logic: it only forwards the price to the session callback, and in
particular, on the failing input — an active ladder with the single rung
105 receiving price 110 at time 100, well before expiry 5000 — it leaves
`HitRungs` at `{105 ↦ false}` and the contract active.  The first
conjunct shows the evaluator state is unchanged by every price update.
-/
theorem c1_ladder_rungs_never_promoted :
    (∀ (ll : LuckyLadder) (p : ℚ) (t : ℤ),
        (LuckyLadder.handlePriceUpdate ll p t).1 = ll) ∧
    (LuckyLadder.handlePriceUpdate llFresh 110 100).1.hitRungs = [(105, false)] ∧
    (LuckyLadder.handlePriceUpdate llFresh 110 100).1.isActive = true ∧
    (LuckyLadder.handlePriceUpdate llFresh 110 100).1.hasHitRung = false := by
  refine ⟨fun ll p t => ?_, by decide, by decide, by decide⟩
  unfold LuckyLadder.handlePriceUpdate
  split <;> rfl

/-- Claim C2, counterexample to the claim as stated: under the claim,
*any* two consecutive ticks differing by exactly `target_movement` make
the second tick transition to `target_hit`.  On the fresh momentum
contract with `target_movement = 5`, the tick sequence 100, 103, 98 has
consecutive ticks 103 and 98 with `|98 − 103| = 5`, yet after the third
tick the contract is still `active`: the source compares each price with
the *starting* price (here 100, movement 2), not with the previous tick.
-/
theorem c2_counterexample_consecutive_ticks :
    goAbs (98 - 103) = mcFresh.targetMovement ∧
    MomentumCatcher.status
      (MomentumCatcher.handlePriceUpdate
        (MomentumCatcher.handlePriceUpdate
          (MomentumCatcher.handlePriceUpdate mcFresh 100 0).1 103 100).1
        98 200).1 = CStatus.active ∧
    MomentumCatcher.status
      (MomentumCatcher.handlePriceUpdate
        (MomentumCatcher.handlePriceUpdate
          (MomentumCatcher.handlePriceUpdate mcFresh 100 0).1 103 100).1
        98 200).1 ≠ CStatus.target_hit := by
  refine ⟨?_, ?_, ?_⟩ <;>
    (norm_num [mcFresh, MomentumCatcher.handlePriceUpdate,
      MomentumCatcher.status, goAbs]; try decide)

/-- Claim C2 as amended: for every active Momentum contract whose
starting price is set (and whose target is not yet reached),
`on_price(p, t)` yields status `target_hit` exactly when
`|p − starting_price| ≥ target_movement` (inclusive threshold); and if
the contract's *first two* ticks differ by exactly `target_movement`
(positive target, first tick before expiry), the second tick transitions
it to `target_hit`. -/
theorem c2_momentum_target_hit_iff_movement :
    (∀ (mc : MomentumCatcher) (p : ℚ) (t : ℤ) (sp : ℚ),
        mc.isActive = true → mc.hasReachedTarget = false →
        mc.startingPrice = some sp →
        (MomentumCatcher.status (MomentumCatcher.handlePriceUpdate mc p t).1 =
            CStatus.target_hit ↔ |p - sp| ≥ mc.targetMovement)) ∧
    (∀ (mc : MomentumCatcher) (p1 p2 : ℚ) (t1 t2 : ℤ),
        mc.isActive = true → mc.hasReachedTarget = false →
        mc.startingPrice = none → 0 < mc.targetMovement →
        t1 ≤ mc.expiryTime → |p2 - p1| = mc.targetMovement →
        MomentumCatcher.status
          (MomentumCatcher.handlePriceUpdate
            (MomentumCatcher.handlePriceUpdate mc p1 t1).1 p2 t2).1 =
          CStatus.target_hit) := by
  have main : ∀ (mc : MomentumCatcher) (p : ℚ) (t : ℤ) (sp : ℚ),
      mc.isActive = true → mc.hasReachedTarget = false →
      mc.startingPrice = some sp →
      (MomentumCatcher.status (MomentumCatcher.handlePriceUpdate mc p t).1 =
          CStatus.target_hit ↔ |p - sp| ≥ mc.targetMovement) := by
    intro mc p t sp hAct hTar hSp
    rw [handlePriceUpdate_active mc p t sp hAct hSp]
    split_ifs with hMov hExp
    · simpa [MomentumCatcher.status] using hMov
    · simp only [MomentumCatcher.status]
      simp [hTar, hMov]
    · simp [MomentumCatcher.status, hAct, hMov]
  refine ⟨main, ?_⟩
  intro mc p1 p2 t1 t2 hAct hTar hSp hPos hT1 hDiff
  have hfirst : (MomentumCatcher.handlePriceUpdate mc p1 t1).1 =
      { mc with startingPrice := some p1,
                priceHistory := mc.priceHistory ++ [p1] } := by
    unfold MomentumCatcher.handlePriceUpdate
    simp [hAct, hSp, goAbs_eq_abs, not_le.mpr hPos, not_lt.mpr hT1]
  have h2 := main ({ mc with startingPrice := some p1,
                             priceHistory := mc.priceHistory ++ [p1] })
      p2 t2 p1 hAct hTar rfl
  rw [hfirst]
  exact h2.mpr (ge_of_eq hDiff)

/-- Claim C2 witness: the fresh momentum contract (positive target 5,
expiry 10000) with first tick 100 at time 0 and second tick 105 at time
100 — the two ticks differ by exactly the target movement and the second
tick yields `target_hit`; and the iff instance at the running contract.
-/
theorem c2_momentum_target_hit_iff_movement_witness :
    (MomentumCatcher.status
      (MomentumCatcher.handlePriceUpdate
        (MomentumCatcher.handlePriceUpdate mcFresh 100 0).1 105 100).1 =
      CStatus.target_hit) ∧
    (MomentumCatcher.status
        (MomentumCatcher.handlePriceUpdate mcRunning 110 50).1 =
      CStatus.target_hit ↔ |(110 : ℚ) - 100| ≥ mcRunning.targetMovement) :=
  ⟨c2_momentum_target_hit_iff_movement.2 mcFresh 100 105 0 100 rfl rfl rfl
      (by decide) (by decide) (by norm_num [mcFresh]),
   c2_momentum_target_hit_iff_movement.1 mcRunning 110 50 100 rfl rfl rfl⟩

/-- Claim C3, counterexample to the claim as stated: the claim says a
tick with `t ≥ expiry_time` yields `expired` rather than `target_hit`
because the expiry check precedes the target check.  In the source the
target check comes first and expiry uses the strict `timestamp.After`:
on the running contract (starting price 100, target 5, expiry 1000), the
tick `(110, 1000)` — at the expiry boundary, movement 10 ≥ 5 — yields
`target_hit`, not `expired`; and the tick `(101, 1000)` — at the expiry
boundary with movement below target — leaves the contract `active`
rather than `expired`. -/
theorem c3_counterexample_target_checked_before_expiry :
    MomentumCatcher.status
        (MomentumCatcher.handlePriceUpdate mcRunning 110 1000).1 =
      CStatus.target_hit ∧
    MomentumCatcher.status
        (MomentumCatcher.handlePriceUpdate mcRunning 110 1000).1 ≠
      CStatus.expired ∧
    MomentumCatcher.status
        (MomentumCatcher.handlePriceUpdate mcRunning 101 1000).1 =
      CStatus.active := by
  refine ⟨?_, ?_, ?_⟩ <;>
    (norm_num [mcRunning, mcFresh, MomentumCatcher.handlePriceUpdate,
      MomentumCatcher.status, goAbs]; try decide)

/-- Claim C3 as amended: for every active Momentum contract with
starting price set (target not yet reached), `on_price(p, t)` yields
status `expired` exactly when `t` is strictly after `expiry_time` and
the movement `|p − starting_price|` is below `target_movement`: the
expiry check is performed after the target-movement check and is
exclusive at the boundary. -/
theorem c3_momentum_expired_iff_strictly_late (mc : MomentumCatcher)
    (p : ℚ) (t : ℤ) (sp : ℚ)
    (hAct : mc.isActive = true) (hTar : mc.hasReachedTarget = false)
    (hSp : mc.startingPrice = some sp) :
    MomentumCatcher.status (MomentumCatcher.handlePriceUpdate mc p t).1 =
        CStatus.expired ↔
      (|p - sp| < mc.targetMovement ∧ t > mc.expiryTime) := by
  rw [handlePriceUpdate_active mc p t sp hAct hSp]
  split_ifs with hMov hExp
  · simp [MomentumCatcher.status, not_lt.mpr hMov]
  · simp [MomentumCatcher.status, hTar, not_le.mp hMov, hExp]
  · simp [MomentumCatcher.status, hAct, hExp]

/-- Claim C3 witness: the running contract (starting price 100, target
5, expiry 1000) with tick `(101, 1001)` — strictly past expiry, movement
1 below target — is `expired`. -/
theorem c3_momentum_expired_iff_strictly_late_witness :
    MomentumCatcher.status
        (MomentumCatcher.handlePriceUpdate mcRunning 101 1001).1 =
      CStatus.expired :=
  (c3_momentum_expired_iff_strictly_late mcRunning 101 1001 100
      rfl rfl rfl).mpr ⟨by norm_num [mcRunning, mcFresh], by decide⟩

/-- Claim C4, counterexample to the claim as stated: an evaluator that
is no longer active does *not* emit nothing — the source invokes the
registered session update callback before it checks `IsActive`, so the
terminated contract `mcDone` still emits a callback event on every
tick. -/
theorem c4_counterexample_inactive_still_emits_callback :
    mcDone.isActive = false ∧
    (MomentumCatcher.handlePriceUpdate mcDone 120 300).2 ≠ [] ∧
    (MomentumCatcher.handlePriceUpdate mcDone 120 300).2 =
      [MCEvent.callbackUpdate 120 300] := by
  refine ⟨by decide, by decide, by decide⟩

/-- Claim C4 as amended: for every Momentum evaluator not in status
`active`, a call to `on_price` leaves the evaluator's state (starting
price, target flag, price history, activity flag) unchanged, never
re-enters `active` (terminal statuses are absorbing), and sends no
client notification — but it does still invoke the registered
price-update callback before checking activity. -/
theorem c4_inactive_momentum_state_unchanged (mc : MomentumCatcher)
    (p : ℚ) (t : ℤ) (hInact : mc.isActive = false) :
    (MomentumCatcher.handlePriceUpdate mc p t).1 = mc ∧
    (MomentumCatcher.handlePriceUpdate mc p t).1.isActive = false ∧
    (∀ s pr ts po, MCEvent.clientNotify s pr ts po ∉
        (MomentumCatcher.handlePriceUpdate mc p t).2) ∧
    (mc.updateCallbackSet = true →
      (MomentumCatcher.handlePriceUpdate mc p t).2 =
        [MCEvent.callbackUpdate p t]) := by
  unfold MomentumCatcher.handlePriceUpdate
  refine ⟨by simp [hInact], by simp [hInact], ?_, by intro h; simp [hInact, h]⟩
  intro s pr ts po
  simp only [hInact, Bool.not_false, if_true]
  split <;> simp

/-- Claim C4 witness: the terminated contract `mcDone` on tick
`(120, 300)`. -/
theorem c4_inactive_momentum_state_unchanged_witness :
    (MomentumCatcher.handlePriceUpdate mcDone 120 300).1 = mcDone ∧
    (MomentumCatcher.handlePriceUpdate mcDone 120 300).1.isActive = false ∧
    (∀ s pr ts po, MCEvent.clientNotify s pr ts po ∉
        (MomentumCatcher.handlePriceUpdate mcDone 120 300).2) ∧
    (mcDone.updateCallbackSet = true →
      (MomentumCatcher.handlePriceUpdate mcDone 120 300).2 =
        [MCEvent.callbackUpdate 120 300]) :=
  c4_inactive_momentum_state_unchanged mcDone 120 300 (by decide)

/-- A semantically invalid submission payload fails
`validateContractData` with some error message. -/
lemma validateContractData_some_of_invalid (d : ContractData)
    (h : invalidData d) : ∃ e, validateContractData d = some e := by
  unfold validateContractData
  by_cases h1 : d.productType = ""
  · exact ⟨"productType is required", by simp [h1]⟩
  by_cases h2 : d.duration ≤ 0
  · exact ⟨"duration must be positive", by simp [h1, h2]⟩
  by_cases h3 : d.payoff ≤ 0
  · exact ⟨"payoff must be positive", by simp [h1, h2, h3]⟩
  by_cases h4 : d.productType = "LuckyLadder"
  · by_cases h5 : d.rungs.length = 0
    · exact ⟨"rungs are required for LuckyLadder", by simp [h1, h2, h3, h4, h5]⟩
    by_cases h6 : hasDuplicateRung [] d.rungs = true
    · exact ⟨"duplicate rung values are not allowed",
        by simp [h1, h2, h3, h4, h5, h6]⟩
    by_cases h7 : rungsAscending d.rungs = true
    · exfalso
      rcases h with ⟨hL, _⟩ | hd | hp | ⟨_, hr | hdup | hasc⟩ | ⟨hMom, _⟩
      · exact hL h4
      · exact h2 hd
      · exact h3 hp
      · exact h5 (by simp [hr])
      · exact h6 hdup
      · simp [h7] at hasc
      · rw [h4] at hMom
        simp at hMom
    · have h7f : rungsAscending d.rungs = false := by simpa using h7
      refine ⟨"rungs must be in ascending order", ?_⟩
      simp [h1, h2, h3, h4, h5, h6, h7f]
  by_cases h8 : d.productType = "MomentumCatcher"
  · by_cases h9 : d.targetMovement ≤ 0
    · exact ⟨"targetMovement must be positive",
        by simp [h1, h2, h3, h4, h8, h9]⟩
    · exfalso
      rcases h with ⟨_, hM⟩ | hd | hp | ⟨hL, _⟩ | ⟨_, ht⟩
      · exact hM h8
      · exact h2 hd
      · exact h3 hp
      · exact h4 hL
      · exact h9 ht
  · exact ⟨"unsupported product type: " ++ d.productType,
      by simp [h1, h2, h3, h4, h8]⟩

/-- Claim C5: every well-formed frame that is a semantically invalid
submission — missing `type`, missing `data`, `productType` outside the
allowed set, non-positive `duration` or `payoff`, Ladder with empty,
non-ascending or duplicate rungs, Momentum with non-positive
`targetMovement` — is answered with a single `Error` reply whose
`errorType` is `ValidationError`, and no contract is created in the
contract service nor subscribed to the simulation engine. -/
theorem c5_invalid_submission_rejected (svcOk : Bool)
    (queryReplies : List Reply) (newID : String) (m : InMessage)
    (h : semanticallyInvalid m) :
    isSingleValidationError (handleMessage svcOk queryReplies newID m).replies ∧
    (handleMessage svcOk queryReplies newID m).created = [] ∧
    (handleMessage svcOk queryReplies newID m).subscribed = [] := by
  have hne : ("ContractSubmission" : String) ≠ "" := by decide
  rcases h with h0 | ⟨hT, hD⟩ | ⟨hT, hI⟩
  · simp [handleMessage, h0, isSingleValidationError]
  · simp [handleMessage, hT, hD, hne, isSingleValidationError]
  · rcases hmd : m.data with _ | _ | d
    · rw [hmd] at hI; exact absurd hI (by simp)
    · rw [hmd] at hI; exact absurd hI (by simp)
    · rw [hmd] at hI
      obtain ⟨e, he⟩ := validateContractData_some_of_invalid d hI
      simp [handleMessage, hT, hmd, hne, he, isSingleValidationError]

/-- Claim C5 witness: the descending-rung ladder submission of
end-to-end scenario 3: a single `ValidationError` reply and no contract
registered. -/
theorem c5_invalid_submission_rejected_witness :
    isSingleValidationError (handleMessage true [] "id1" mBadLadder).replies ∧
    (handleMessage true [] "id1" mBadLadder).created = [] ∧
    (handleMessage true [] "id1" mBadLadder).subscribed = [] :=
  c5_invalid_submission_rejected true [] "id1" mBadLadder
    (Or.inr (Or.inr ⟨rfl,
      Or.inr (Or.inr (Or.inr (Or.inl ⟨rfl, Or.inr (Or.inr (by decide))⟩)))⟩))

/-- Claim C6, counterexample to the claim as stated: in the
`products.Product`-based engine (src/internal/simulation/engine.go),
`Subscribe` merely inserts the evaluator into the subscriber map and
delivers no price event at all — zero priming events, not exactly one.
-/
theorem c6_counterexample_subscribe_without_priming :
    (SimulationEngine.subscribe
        { subscribers := [], basePrice := 100 } "c1").2 = [] ∧
    (SimulationEngine.subscribe
        { subscribers := [], basePrice := 100 } "c1").2.length ≠ 1 := by
  exact ⟨rfl, by decide⟩

/-- Claim C6 as amended: in the `PriceHandler`-based engine
(src/unnamed/part_005), `Subscribe` registers the evaluator and delivers
exactly one immediate priming price event carrying the generator's
current `base_price` to that evaluator (asynchronously, on a spawned
task); the `products.Product`-based engine delivers none. -/
theorem c6_subscribe_with_priming_one_event (se : SimulationEngine)
    (contractID : String) :
    (SimulationEngine.subscribeWithPriming se contractID).2 =
      [{ contractID := contractID, price := se.basePrice }] ∧
    contractID ∈
      (SimulationEngine.subscribeWithPriming se contractID).1.subscribers := by
  refine ⟨rfl, ?_⟩
  unfold SimulationEngine.subscribeWithPriming SimulationEngine.registryInsert
  dsimp only
  split
  · assumption
  · exact List.mem_cons_self _ _

/-- Claim C7: when the hub processes the unregister event of a
registered client, every contract id owned by that client is removed
from the subscription registry. -/
theorem c7_unregister_removes_owned_from_registry (h : HubState)
    (c : HubClient) (contractID : String)
    (hc : c ∈ h.clients) (hid : contractID ∈ c.contracts) :
    contractID ∉ (processUnregister h c).registry := by
  unfold processUnregister
  rw [if_pos hc]
  exact mem_foldl_filter_removed c.contracts h.registry contractID hid

/-- Claim C7 witness: unregistering session `"s1"` of `hubFix` removes
its contract `"k1"` from the registry. -/
theorem c7_unregister_removes_owned_from_registry_witness :
    "k1" ∉ (processUnregister hubFix hubClientFix).registry :=
  c7_unregister_removes_owned_from_registry hubFix hubClientFix "k1"
    (by decide) (by decide)

/-- Claim C8: one generator step returns the new `base_price`, the new
`base_price` equals
`base_price · exp((μ − σ²/2)·dt + σ·ε·√dt)` with `μ = 2·10⁻⁴`,
`σ = 10⁻²`, `dt = 0.1`, and for every `ε` the result is strictly
positive whenever the previous `base_price` is. -/
theorem c8_generate_price_gbm_positive (se : EngineGBM) (epsilon : ℝ) :
    (EngineGBM.generatePrice se epsilon).2 =
      (EngineGBM.generatePrice se epsilon).1.basePrice ∧
    (EngineGBM.generatePrice se epsilon).2 =
      se.basePrice *
        Real.exp ((0.0002 - 0.01 ^ 2 / 2) * 0.1 +
          0.01 * epsilon * Real.sqrt 0.1) ∧
    (0 < se.basePrice → 0 < (EngineGBM.generatePrice se epsilon).2) := by
  refine ⟨rfl, ?_, ?_⟩
  · show se.basePrice * Real.exp ((0.0002 - 0.5 * 0.01 ^ 2) * 0.1 +
        0.01 * epsilon * Real.sqrt 0.1) = _
    norm_num
  · intro hb
    exact mul_pos hb (Real.exp_pos _)

/-- Claim C8 witness: a step from the default `base_price` 100 with
`ε = 0` is strictly positive. -/
theorem c8_generate_price_gbm_positive_witness :
    (0 : ℝ) < 100 ∧
    0 < (EngineGBM.generatePrice { basePrice := 100 } 0).2 :=
  ⟨by norm_num,
   (c8_generate_price_gbm_positive { basePrice := 100 } 0).2.2 (by norm_num)⟩

set_option maxRecDepth 4000 in
/-- Claim C9, counterexample to the claim as stated: `Client.sendMessage`
(client.go lines 594–603) enqueues with the unguarded `c.Send <- message`;
with the 256-message buffer full, the operation cannot complete — the
producer blocks instead of dropping the update, unlike the try-send
`Client.SendMessage`. -/
theorem c9_counterexample_send_message_blocks :
    blockingSendMessage (List.replicate 256 0) 1 = none ∧
    trySendMessage (List.replicate 256 0) 1 = (List.replicate 256 0, false) := by
  exact ⟨by decide, by decide⟩

/-- Claim C9 as amended: `Client.SendMessage` (client.go lines 69–77)
is a non-blocking try-send: when the bounded queue is full the new
update is dropped and the queue is unchanged, and when it has room the
update is appended; but `Client.sendMessage` (lines 594–603) and the
proxied update callback perform a blocking channel send that waits while
the queue is full instead of dropping. -/
theorem c9_try_send_drops_newest_when_full (queue : List ℕ) (m : ℕ) :
    (sendChanCap ≤ queue.length → trySendMessage queue m = (queue, false)) ∧
    (queue.length < sendChanCap → trySendMessage queue m = (queue ++ [m], true)) := by
  constructor
  · intro hfull
    unfold trySendMessage
    rw [if_neg (not_lt.mpr hfull)]
  · intro hroom
    unfold trySendMessage
    rw [if_pos hroom]

set_option maxRecDepth 4000 in
/-- Claim C9 witness: a full queue drops the newest message unchanged;
a one-element queue accepts it. -/
theorem c9_try_send_drops_newest_when_full_witness :
    trySendMessage (List.replicate 256 5) 7 = (List.replicate 256 5, false) ∧
    trySendMessage [5] 7 = ([5, 7], true) :=
  ⟨(c9_try_send_drops_newest_when_full (List.replicate 256 5) 7).1 (by decide),
   (c9_try_send_drops_newest_when_full [5] 7).2 (by decide)⟩

/-- Claim C10: `MomentumCatcher.GetState` on an evaluator whose
`StartingPrice` is still unset reports `startingPrice` as 0 — the whole
reported state coincides with that of the same evaluator with a genuine
starting price of 0, so the two are indistinguishable at the public
interface — while `isActive` and `hasReachedTarget` are reported
unchanged. -/
theorem c10_get_state_unset_starting_price_reports_zero
    (mc : MomentumCatcher) (h : mc.startingPrice = none) :
    (MomentumCatcher.getState mc).startingPrice = 0 ∧
    MomentumCatcher.getState mc =
      MomentumCatcher.getState { mc with startingPrice := some 0 } ∧
    (MomentumCatcher.getState mc).isActive = mc.isActive ∧
    (MomentumCatcher.getState mc).hasReachedTarget = mc.hasReachedTarget := by
  unfold MomentumCatcher.getState
  simp [h]

/-- Claim C10 witness: the freshly initialised momentum contract, whose
starting price is not yet observed. -/
theorem c10_get_state_unset_starting_price_reports_zero_witness :
    (MomentumCatcher.getState mcFresh).startingPrice = 0 ∧
    MomentumCatcher.getState mcFresh =
      MomentumCatcher.getState { mcFresh with startingPrice := some 0 } ∧
    (MomentumCatcher.getState mcFresh).isActive = mcFresh.isActive ∧
    (MomentumCatcher.getState mcFresh).hasReachedTarget =
      mcFresh.hasReachedTarget :=
  c10_get_state_unset_starting_price_reports_zero mcFresh rfl

end PricingServer
